import Mathlib

/-!
Verification development for the 3D_inter capture-and-preview client.

The repository ships two variants of `src/lib/api.ts` (a pre-signed
Vercel-Blob variant and a direct-upload variant) plus the session page
`src/app/page.tsx` and the static-file route
`src/app/api/static/[...slug]/route.ts`.  This file gives a shallow
embedding of those functions and proves the specified properties about
them.  Network effects are modelled by explicit oracles (a poll oracle
mapping the attempt index to the HTTP response it produces, request logs
for the upload client, a read oracle for the file system), and the
asynchronous callback-based browser APIs are modelled by synchronous
state-passing functions.
-/

namespace ThreeDInter

/-- The `ConvertedModel` record of `api.ts` (`url`, `label`); the optional
`type` tag of the spec's `model_info` is carried along since `page.tsx`
reads `model.type`. -/
structure ConvertedModel where
  url : String
  label : String
  type : Option String := none
deriving DecidableEq, Repr

/-- The `status` field of a `/api/result/{id}` response. -/
inductive JobStatus where
  | processing
  | completed
  | failed
deriving DecidableEq, Repr

/-- The parsed JSON body of a `/api/result/{id}` response
(`ConversionStatus` in `api.ts`; the blob variant's type omits `error?`
and never reads it, the direct variant reads it in its failure branch). -/
structure ConversionStatus where
  status : JobStatus
  model_info : Option ConvertedModel
  error : Option String := none
deriving DecidableEq, Repr

/-- One HTTP response to a poll query: the `ok` flag, the numeric status
(for the `response.status` interpolation), and the parsed JSON body. -/
structure PollResponse where
  ok : Bool
  statusCode : Nat
  body : ConversionStatus
deriving DecidableEq, Repr

/-- The `MAX_POLLING_ATTEMPTS` in `api.ts`. -/
def MAX_POLLING_ATTEMPTS : Nat := 60

/-- Loop body of the blob variant's `fetchConvertedModel` : `poll` is the
network oracle (attempt index ↦ response of `GET /api/result/{id}`), `i`
the current loop index, the last argument the remaining attempts.
Returns the outcome (`Except` message / model) together with the number
of poll queries issued. -/
def fetchPollBlob (poll : Nat → PollResponse) : Nat → Nat → Except String ConvertedModel × Nat
  | _, 0 => (Except.error "Model conversion timed out.", 0)
  | i, fuel + 1 =>
    let response := poll i
    if response.ok = false then
      (Except.error ("Failed to fetch conversion status: " ++ toString response.statusCode), 1)
    else
      let result := response.body
      match result.status, result.model_info with
      | JobStatus.completed, some info => (Except.ok info, 1)
      | status, _ =>
        if status = JobStatus.failed then
          (Except.error "Model conversion failed on the server.", 1)
        else
          let rest := fetchPollBlob poll (i + 1) fuel
          (rest.1, rest.2 + 1)

/-- The blob variant's `fetchConvertedModel` (lines 72–101 of the first
`api.ts`): a `for` loop of `MAX_POLLING_ATTEMPTS` iterations. -/
def fetchConvertedModelBlob (poll : Nat → PollResponse) : Except String ConvertedModel × Nat :=
  fetchPollBlob poll 0 MAX_POLLING_ATTEMPTS

/-- The failure message of the direct variant: ``result.error || 'Unknown'``,
so a missing or empty reason string becomes `Unknown`. -/
def directFailedMsg (e : Option String) : String :=
  "Model conversion failed on the server. Reason: " ++
    (match e with
     | some r => if r = "" then "Unknown" else r
     | none => "Unknown")

/-- Loop body of the direct variant's `fetchConvertedModel`; identical to
the blob variant except that the `failed` branch interpolates
`result.error`. -/
def fetchPollDirect (poll : Nat → PollResponse) : Nat → Nat → Except String ConvertedModel × Nat
  | _, 0 => (Except.error "Model conversion timed out.", 0)
  | i, fuel + 1 =>
    let response := poll i
    if response.ok = false then
      (Except.error ("Failed to fetch conversion status: " ++ toString response.statusCode), 1)
    else
      let result := response.body
      match result.status, result.model_info with
      | JobStatus.completed, some info => (Except.ok info, 1)
      | status, _ =>
        if status = JobStatus.failed then
          (Except.error (directFailedMsg result.error), 1)
        else
          let rest := fetchPollDirect poll (i + 1) fuel
          (rest.1, rest.2 + 1)

/-- The direct variant's `fetchConvertedModel` (lines 157–185 of the
second `api.ts`). -/
def fetchConvertedModelDirect (poll : Nat → PollResponse) : Except String ConvertedModel × Nat :=
  fetchPollDirect poll 0 MAX_POLLING_ATTEMPTS

/-- A response is non-terminal for the poll loop when it parses fine and
neither returns (`completed` with a present `model_info`) nor throws
(`failed`). -/
def nonTerminal (r : PollResponse) : Prop :=
  r.ok = true ∧ r.body.status ≠ JobStatus.failed ∧
    (r.body.status = JobStatus.completed → r.body.model_info = none)

instance (r : PollResponse) : Decidable (nonTerminal r) := by
  unfold nonTerminal; infer_instance

/-- Boolean prefix test on character lists, used to express that an error
message carries a reason string. -/
def listPrefixOf : List Char → List Char → Bool
  | [], _ => true
  | _ :: _, [] => false
  | a :: as, b :: bs => (a == b) && listPrefixOf as bs

/-- Boolean infix test on character lists. -/
def listInfixOf : List Char → List Char → Bool
  | sub, [] => listPrefixOf sub []
  | sub, b :: bs => listPrefixOf sub (b :: bs) || listInfixOf sub bs

/-- The `strContains s sub` holds when `sub` occurs inside `s`; an error
message carries a reason exactly when it contains the reason string. -/
def strContains (s sub : String) : Bool :=
  listInfixOf sub.toList s.toList

/-! ## Upload client (`uploadVideo`, both variants) -/

/-- A recording blob: only its byte size matters to `uploadVideo`'s
guard. The parameter is `Option Blob` because the TS code also guards
against a missing (`null`/`undefined`) blob via `!blob`. -/
structure Blob where
  size : Nat
deriving DecidableEq, Repr

/-- The `UploadResponse` of `api.ts`. -/
structure UploadResponse where
  uploadId : String
deriving DecidableEq, Repr

/-- A generic HTTP response for the upload steps: `ok` flag, numeric
status, and raw body text (used in error interpolations). -/
structure HttpResponse where
  ok : Bool
  statusCode : Nat
  bodyText : String
deriving DecidableEq, Repr

/-- The network requests `uploadVideo` can issue, in the order they are
logged. -/
inductive UploadRequest where
  | postUploadUrl (filename : String)
  | putBlobBytes (uploadUrl : String)
  | postStartConversion (downloadUrl : String)
  | postUpload (filename : String)
deriving DecidableEq, Repr

/-- Environment for the blob variant of `uploadVideo`: the module-level
`API_BASE_URL` plus the responses the three network steps would produce. -/
structure BlobUploadEnv where
  apiBaseUrl : String
  uploadUrlResp : HttpResponse
  uploadUrl : String
  downloadUrl : String
  putResp : HttpResponse
  startResp : HttpResponse
  startUploadId : String
deriving DecidableEq, Repr

/-- The blob variant's `uploadVideo` (lines 27–67 of the first `api.ts`):
empty-blob and base-URL guards, then `POST /api/upload-url`,
`PUT uploadUrl`, `POST /api/start-conversion`.  Returns the outcome and
the list of network requests issued. -/
def uploadVideoBlob (env : BlobUploadEnv) (blob : Option Blob) (filename : String) :
    Except String UploadResponse × List UploadRequest :=
  match blob with
  | none => (Except.error "The video to convert is missing.", [])
  | some b =>
    if b.size = 0 then
      (Except.error "The video to convert is missing.", [])
    else if env.apiBaseUrl = "" then
      (Except.error "API_BASE_URL is not set. Cannot process upload.", [])
    else
      let log1 := [UploadRequest.postUploadUrl filename]
      if env.uploadUrlResp.ok = false then
        (Except.error "Failed to get a pre-signed URL for upload.", log1)
      else
        let log2 := log1 ++ [UploadRequest.putBlobBytes env.uploadUrl]
        if env.putResp.ok = false then
          (Except.error "Failed to upload file to Blob storage.", log2)
        else
          let log3 := log2 ++ [UploadRequest.postStartConversion env.downloadUrl]
          if env.startResp.ok = false then
            (Except.error ("Failed to start conversion: " ++ toString env.startResp.statusCode
              ++ " " ++ env.startResp.bodyText), log3)
          else
            (Except.ok ⟨env.startUploadId⟩, log3)

/-- Environment for the direct variant of `uploadVideo`: the response of
the single `POST /api/upload` step. -/
structure DirectUploadEnv where
  uploadResp : HttpResponse
  uploadId : String
deriving DecidableEq, Repr

/-- The direct variant's `uploadVideo` (lines 131–152 of the second
`api.ts`): empty-blob guard, then a single multipart `POST /api/upload`. -/
def uploadVideoDirect (env : DirectUploadEnv) (blob : Option Blob) (filename : String) :
    Except String UploadResponse × List UploadRequest :=
  match blob with
  | none => (Except.error "The video to convert is missing.", [])
  | some b =>
    if b.size = 0 then
      (Except.error "The video to convert is missing.", [])
    else
      let log1 := [UploadRequest.postUpload filename]
      if env.uploadResp.ok = false then
        (Except.error ("Failed to upload video: " ++ toString env.uploadResp.statusCode
          ++ " " ++ env.uploadResp.bodyText), log1)
      else
        (Except.ok ⟨env.uploadId⟩, log1)

/-! ## Session state machine (`page.tsx`)

The React component state of `HomePage` is modelled as one record, the
browser's media layer as a `CaptureWorld` (a fresh-handle counter plus
the set of streams whose tracks have not been stopped), and the
environment probed by `openCamera` (`window.isSecureContext`,
`navigator.mediaDevices.getUserMedia` availability and outcome) as a
`CameraEnv`.  Callback-based events (`onstop`, `ondataavailable`, the
1-second interval) are modelled as synchronous state-transition
functions. -/

/-- The `Stage` union type of `page.tsx`. -/
inductive Stage where
  | locked
  | record
  | review
  | viewer
deriving DecidableEq, Repr

/-- The `RecordingStatus` union type of `page.tsx`. -/
inductive RecordingStatus where
  | idle
  | recording
  | processing
deriving DecidableEq, Repr

/-- The `ToastTone` union type of `page.tsx`. -/
inductive ToastTone where
  | info
  | error
deriving DecidableEq, Repr

/-- The toast state (`message`, `tone`). -/
structure Toast where
  message : String
  tone : ToastTone
deriving DecidableEq, Repr

/-- The `videoSource` union type of `page.tsx`. -/
inductive VideoSource where
  | recorded
  | uploaded
deriving DecidableEq, Repr

/-- The component state of `HomePage`.  `mediaStream` is the handle held
in `mediaStreamRef` (mirrored by the `mediaStream` state), `recorder`
says whether `recorderRef` holds an actively recording `MediaRecorder`,
`timerArmed` whether `timerRef` holds the 1-second interval,
`bufferedBytes` the bytes accumulated by `ondataavailable`,
`autoStartRef`/`autoStartPending` the `autoStartRef` flag and the
`setTimeout`-scheduled auto start. -/
structure SessionState where
  stage : Stage
  passwordError : String
  mediaStream : Option Nat
  recorder : Bool
  recordingStatus : RecordingStatus
  timerArmed : Bool
  elapsedMs : Nat
  isCameraLoading : Bool
  videoBlob : Option Blob
  videoSource : Option VideoSource
  bufferedBytes : Nat
  processingResult : Bool
  modelUrl : Option String
  modelType : Option String
  modelLabel : String
  modelLoading : Bool
  toast : Option Toast
  autoStartRef : Bool
  autoStartPending : Bool
deriving DecidableEq, Repr

/-- The browser media layer: `nextHandle` generates fresh stream handles,
`live` is the list of handles whose tracks have not been stopped. -/
structure CaptureWorld where
  nextHandle : Nat
  live : List Nat
deriving DecidableEq, Repr

/-- Outcome of a `getUserMedia` call: success, or the `DOMException`
names distinguished by `openCamera`'s catch block. -/
inductive CameraOutcome where
  | success
  | notAllowed
  | notFound
  | otherError
deriving DecidableEq, Repr

/-- The environment probed by `openCamera`. -/
structure CameraEnv where
  isSecureContext : Bool
  hasMediaDevicesApi : Bool
  outcome : CameraOutcome
deriving DecidableEq, Repr

/-- The `ACCESS_PASSWORD` of `page.tsx`. -/
def ACCESS_PASSWORD : String := "2025jhyw"

/-- Whitespace in the sense of JavaScript's `String.prototype.trim`: the
ECMAScript WhiteSpace and LineTerminator code points, i.e. tab, LF, VT,
FF, CR, space, NBSP, the Ogham space mark U+1680, every Space_Separator
in U+2000\u2013U+200A, LS, PS, the narrow no-break space U+202F, the medium
mathematical space U+205F, the ideographic space U+3000, and the BOM. -/
def isJsWhitespace (c : Char) : Bool :=
  c == ' ' || c == '\t' || c == '\n' || c == '\r' || c == '\x0B' || c == '\x0C' ||
    c == '\u00A0' || c == '\u1680' || (0x2000 ≤ c.toNat && c.toNat ≤ 0x200A) ||
    c == '\u2028' || c == '\u2029' || c == '\u202F' || c == '\u205F' ||
    c == '\u3000' || c == '\uFEFF'

/-- Drop leading JS whitespace from a character list. -/
def jsTrimLeft : List Char → List Char
  | [] => []
  | c :: cs => if isJsWhitespace c then jsTrimLeft cs else c :: cs

/-- JavaScript's `String.prototype.trim`, as invoked on the submitted
password value. -/
def jsTrim (s : String) : String :=
  String.mk ((jsTrimLeft ((jsTrimLeft s.toList).reverse)).reverse)

/-- The `MAX_DURATION_MS` of `page.tsx`. -/
def MAX_DURATION_MS : Nat := 60000

/-- Initial `useState` values of `HomePage`. -/
def initialState : SessionState where
  stage := Stage.locked
  passwordError := ""
  mediaStream := none
  recorder := false
  recordingStatus := RecordingStatus.idle
  timerArmed := false
  elapsedMs := 0
  isCameraLoading := false
  videoBlob := none
  videoSource := none
  bufferedBytes := 0
  processingResult := false
  modelUrl := none
  modelType := some "obj"
  modelLabel := "Demo model"
  modelLoading := false
  toast := none
  autoStartRef := false
  autoStartPending := false

/-- The world before any stream was acquired. -/
def initialWorld : CaptureWorld where
  nextHandle := 0
  live := []

/-- A secure-context environment with a working camera. -/
def secureEnv : CameraEnv where
  isSecureContext := true
  hasMediaDevicesApi := true
  outcome := CameraOutcome.success

/-- An insecure-context environment (plain HTTP on a phone), where
`openCamera` refuses to open and falls back to the locked stage. -/
def insecureEnv : CameraEnv where
  isSecureContext := false
  hasMediaDevicesApi := true
  outcome := CameraOutcome.success

/-- The `resetRecordingState` of `page.tsx`. -/
def resetRecordingState (s : SessionState) : SessionState :=
  { s with videoBlob := none, videoSource := none, elapsedMs := 0,
           recordingStatus := RecordingStatus.idle }

/-- The `cleanupTimer` of `page.tsx`: clears the 1-second interval. -/
def cleanupTimer (s : SessionState) : SessionState :=
  { s with timerArmed := false }

/-- The `showToast` of `page.tsx` (the 3.2-second auto-dismiss timer is not
modelled; only the visible message and tone are). -/
def showToast (s : SessionState) (message : String) (tone : ToastTone) : SessionState :=
  { s with toast := some ⟨message, tone⟩ }

/-- The `recorder.onstop` handler installed by `handleStartRecording`:
clears the timer, finalizes the buffered chunks into a blob, flips the
status to idle and moves to the review stage. -/
def recorderOnStop (s : SessionState) : SessionState :=
  let s1 := cleanupTimer s
  { s1 with videoBlob := some ⟨s1.bufferedBytes⟩,
            videoSource := some VideoSource.recorded,
            recordingStatus := RecordingStatus.idle,
            stage := Stage.review }

/-- The `MediaRecorder.stop()`: a no-op on an inactive recorder, otherwise
deactivates it and fires the `onstop` handler. -/
def recorderStop (s : SessionState) : SessionState :=
  if s.recorder then recorderOnStop { s with recorder := false } else s

/-- The `stopStream` of `page.tsx`: clears the timer, stops any active
recorder, nulls `recorderRef`, stops every track of the held stream and
nulls `mediaStreamRef`/`mediaStream`. -/
def stopStream (s : SessionState) (w : CaptureWorld) : SessionState × CaptureWorld :=
  let s1 := cleanupTimer s
  let s2 := recorderStop s1
  let w2 :=
    match s2.mediaStream with
    | some h => { w with live := w.live.erase h }
    | none => w
  ({ s2 with mediaStream := none }, w2)

/-- The `openCamera` of `page.tsx`: release any previous stream, reset the
recording state, check secure context and API availability, then request
a fresh stream; returns the new state, world, and the boolean result of
the TS function. -/
def openCamera (env : CameraEnv) (autoStart : Bool) (s : SessionState) (w : CaptureWorld) :
    SessionState × CaptureWorld × Bool :=
  let p := stopStream s w
  let s1 := resetRecordingState p.1
  let s1 := { s1 with autoStartRef := autoStart, modelLoading := false }
  if env.isSecureContext = false then
    ({ showToast s1 "모바일에서는 HTTPS(보안 연결)에서만 카메라를 사용할 수 있습니다." ToastTone.error
        with stage := Stage.locked }, p.2, false)
  else if env.hasMediaDevicesApi = false then
    ({ showToast s1 "이 기기에서는 카메라 API를 사용할 수 없습니다. 동영상 파일을 업로드하여 진행할 수 있습니다." ToastTone.info
        with stage := Stage.record }, p.2, false)
  else
    let s2 := { s1 with stage := Stage.record, isCameraLoading := true }
    match env.outcome with
    | CameraOutcome.success =>
      let h := p.2.nextHandle
      let w2 : CaptureWorld := { nextHandle := h + 1, live := p.2.live ++ [h] }
      let s3 := { s2 with mediaStream := some h, isCameraLoading := false }
      let s3 :=
        if s3.autoStartRef then
          { s3 with autoStartRef := false, autoStartPending := true }
        else s3
      (s3, w2, true)
    | CameraOutcome.notAllowed =>
      ({ showToast { s2 with isCameraLoading := false }
          "카메라 권한을 허용해주세요. 브라우저 설정에서 변경 가능합니다. 또는 동영상 파일을 업로드하여 진행할 수 있습니다." ToastTone.error
          with stage := Stage.record }, p.2, false)
    | CameraOutcome.notFound =>
      ({ showToast { s2 with isCameraLoading := false }
          "사용 가능한 카메라를 찾을 수 없습니다. 동영상 파일을 업로드하여 진행할 수 있습니다." ToastTone.error
          with stage := Stage.record }, p.2, false)
    | CameraOutcome.otherError =>
      ({ showToast { s2 with isCameraLoading := false }
          "카메라 접근 권한이 필요합니다. 동영상 파일을 업로드하여 진행할 수 있습니다." ToastTone.error
          with stage := Stage.record }, p.2, false)

/-- The `handleStartRecording` of `page.tsx`: requires a held stream (else an
error toast), then arms a fresh recorder and the 1-second countdown.
`recorderSupported` models whether the `new MediaRecorder` construction
in the `try` block succeeds.  The container-format preference list only
affects the blob's MIME tag and is not modelled. -/
def handleStartRecording (recorderSupported : Bool) (s : SessionState) : SessionState :=
  match s.mediaStream with
  | none => showToast s "카메라 스트림을 찾을 수 없습니다." ToastTone.error
  | some _ =>
    if recorderSupported = false then
      showToast s "녹화를 시작할 수 없습니다." ToastTone.error
    else
      { s with recorder := true, bufferedBytes := 0, videoBlob := none,
               recordingStatus := RecordingStatus.recording, elapsedMs := 0,
               timerArmed := true }

/-- One firing of the 1-second interval armed by `handleStartRecording`:
advance `elapsedMs` by 1000; at `MAX_DURATION_MS` force-stop the recorder
and clamp `elapsedMs`. -/
def timerTick (s : SessionState) : SessionState :=
  if s.timerArmed = false then s
  else
    let next := s.elapsedMs + 1000
    if MAX_DURATION_MS ≤ next then
      let s1 := recorderStop s
      { s1 with elapsedMs := MAX_DURATION_MS }
    else
      { s with elapsedMs := next }

/-- The `recorder.ondataavailable` handler: buffer a non-empty chunk
while the recorder is active. -/
def dataAvailable (n : Nat) (s : SessionState) : SessionState :=
  if s.recorder then
    if n = 0 then s else { s with bufferedBytes := s.bufferedBytes + n }
  else s

/-- Events delivered to an armed recording session. -/
inductive RecEvent where
  | tick
  | data (n : Nat)
deriving DecidableEq, Repr

/-- Dispatch one recording event. -/
def recStep (s : SessionState) : RecEvent → SessionState
  | RecEvent.tick => timerTick s
  | RecEvent.data n => dataAvailable n s

/-- The `handleStopRecording` of `page.tsx`: stop the recorder if it is
actively recording. -/
def handleStopRecording (s : SessionState) : SessionState :=
  if s.recorder then recorderStop s else s

/-- The `handlePasswordSubmit` of `page.tsx`: trim the submitted value,
compare to `ACCESS_PASSWORD`; on a match clear the error and open the
camera, otherwise set the error message. -/
def handlePasswordSubmit (env : CameraEnv) (input : String) (s : SessionState)
    (w : CaptureWorld) : SessionState × CaptureWorld :=
  let value := jsTrim input
  if value = ACCESS_PASSWORD then
    let r := openCamera env false { s with passwordError := "" } w
    (r.1, r.2.1)
  else
    ({ s with passwordError := "비밀번호가 올바르지 않습니다." }, w)

/-- The `handleConfirm` of `page.tsx`.  The awaited outcomes of
`uploadVideo` and `fetchConvertedModel` are passed in as `Except` values
(the thrown `Error` message, or the parsed result); `env` is the camera
environment seen by the recovery `openCamera()` call in the catch block. -/
def handleConfirm (env : CameraEnv) (uploadResult : Except String UploadResponse)
    (pollResult : Except String ConvertedModel) (s : SessionState) (w : CaptureWorld) :
    SessionState × CaptureWorld :=
  match s.videoBlob with
  | none => (showToast s "변환할 영상이 없습니다." ToastTone.error, w)
  | some _ =>
    let s1 := { s with processingResult := true, recordingStatus := RecordingStatus.processing }
    match uploadResult with
    | Except.error msg =>
      let s2 := showToast s1 msg ToastTone.error
      let r := openCamera env false s2 w
      ({ r.1 with processingResult := false, recordingStatus := RecordingStatus.idle }, r.2.1)
    | Except.ok _ =>
      let s2 := { s1 with stage := Stage.viewer, modelLoading := true }
      let s2 := showToast s2 "업로드 완료! 모델 변환을 시작합니다. 시간이 다소 걸릴 수 있습니다." ToastTone.info
      match pollResult with
      | Except.error msg =>
        let s3 := showToast s2 msg ToastTone.error
        let r := openCamera env false s3 w
        ({ r.1 with processingResult := false, recordingStatus := RecordingStatus.idle }, r.2.1)
      | Except.ok model =>
        let s3 := { s2 with modelUrl := some model.url, modelType := model.type,
                            modelLabel := model.label }
        ({ s3 with processingResult := false, recordingStatus := RecordingStatus.idle }, w)

/-- Fold a sequence of `openCamera` calls (environment and `autoStart`
flag per call) over a session state and world. -/
def runOpens (calls : List (CameraEnv × Bool)) (s : SessionState) (w : CaptureWorld) :
    SessionState × CaptureWorld :=
  calls.foldl (fun p c => let r := openCamera c.1 c.2 p.1 p.2; (r.1, r.2.1)) (s, w)

/-- Device-handle invariant: the live streams are exactly the one held in
`mediaStreamRef` (if any), and every held handle was generated by the
world's counter. -/
def handleInv (s : SessionState) (w : CaptureWorld) : Prop :=
  w.live = s.mediaStream.toList ∧ (∀ h, s.mediaStream = some h → h < w.nextHandle)

/-- A concrete review-stage state holding an uploaded 5-byte blob. -/
def reviewState : SessionState :=
  { initialState with stage := Stage.review, videoBlob := some ⟨5⟩, videoSource := some VideoSource.uploaded }

/-- Invariant of an armed recording run: `s0` is the state at
`handleStartRecording` time, `t` the number of timer firings so far.
Before the 60th firing the countdown is armed, the recorder active, and
`elapsedMs = 1000 * t`; from the 60th firing on the recorder is stopped,
`elapsedMs` is clamped at 60000, and a finalized recording is on review.
The toast is untouched either way: the forced stop is not an error. -/
def recInv (s0 s : SessionState) (t : Nat) : Prop :=
  s.toast = s0.toast ∧
  (if t < 60 then
    s.timerArmed = true ∧ s.recorder = true ∧
      s.recordingStatus = RecordingStatus.recording ∧ s.elapsedMs = 1000 * t ∧
      s.stage = s0.stage ∧ s.videoBlob = none
  else
    s.timerArmed = false ∧ s.recorder = false ∧
      s.recordingStatus = RecordingStatus.idle ∧ s.elapsedMs = 60000 ∧
      s.stage = Stage.review ∧ (s.videoBlob).isSome = true)

/-! ## Static file route (`src/app/api/static/[...slug]/route.ts`)

POSIX path strings are modelled at the character level.  `pathJoin`
models Node's `path.join` for an absolute first argument without a
trailing separator: concatenate with `/` and normalize (drop empty and
`.` segments, let `..` pop the previous segment, with `..` at the root
dropped). -/

/-- Boolean string-prefix test (kernel-reducible, unlike
`String.startsWith`). -/
def strStartsWith (s pre : String) : Bool :=
  listPrefixOf pre.toList s.toList

/-- Boolean string-suffix test. -/
def strEndsWith (s suffix : String) : Bool :=
  listPrefixOf suffix.toList.reverse s.toList.reverse

/-- Split a character list on `/`, keeping empty segments, as
`"…".split("/")` / `path.join`'s segmentation does. -/
def splitSlashAux : List Char → List Char → List String
  | acc, [] => [String.mk acc.reverse]
  | acc, c :: cs =>
    if c = '/' then String.mk acc.reverse :: splitSlashAux [] cs
    else splitSlashAux (c :: acc) cs

/-- Split a string on `/`. -/
def splitSlash (s : String) : List String :=
  splitSlashAux [] s.toList

/-- Join segments with `/` (the route's `slug.join("/")`). -/
def joinSlash : List String → String
  | [] => ""
  | [s] => s
  | s :: rest => s ++ "/" ++ joinSlash rest

/-- Normalize the segments of an absolute path: skip empty and `.`
segments, let `..` pop the previous segment (a no-op at the root). -/
def normSegs (segs : List String) : List String :=
  segs.foldl
    (fun acc seg =>
      if seg = "" then acc
      else if seg = "." then acc
      else if seg = ".." then acc.dropLast
      else acc ++ [seg])
    []

/-- Node's `path.join` for an absolute root and a relative filename. -/
def pathJoin (root filename : String) : String :=
  "/" ++ joinSlash (normSegs (splitSlash root ++ splitSlash filename))

/-- An HTTP response of the static route: status, body, and the
`Content-Type` header when one is set. -/
structure StaticResponse where
  status : Nat
  body : String
  contentType : Option String := none
deriving DecidableEq, Repr

/-- The content-type selection of the route: `.obj` and `.mtl` are served
as text, everything else as an octet stream. -/
def contentTypeFor (filename : String) : String :=
  if strEndsWith filename ".obj" then "text/plain; charset=utf-8"
  else if strEndsWith filename ".mtl" then "text/plain; charset=utf-8"
  else "application/octet-stream"

/-- The `GET` handler of `src/app/api/static/[...slug]/route.ts`.  `cwd`
is `process.cwd()`, `fsRead` the file system (`readFile` succeeding with
the content or throwing), `slug` the catch-all route segments.  Returns
the response together with the list of paths passed to `readFile`. -/
def staticGET (cwd : String) (fsRead : String → Option String) (slug : List String) :
    StaticResponse × List String :=
  let filename := joinSlash slug
  if filename = "" then
    (⟨400, "File not specified.", none⟩, [])
  else
    let requestedPath := pathJoin cwd filename
    if strStartsWith requestedPath cwd = false then
      (⟨403, "Forbidden.", none⟩, [])
    else
      match fsRead requestedPath with
      | none => (⟨404, "File not found.", none⟩, [requestedPath])
      | some fileContent => (⟨200, fileContent, some (contentTypeFor filename)⟩, [requestedPath])

/-- The blob-variant poll loop times out after consuming all its fuel when
every response in the window is non-terminal. -/
theorem fetchPollBlob_nonterminal (poll : Nat → PollResponse) :
    ∀ fuel i, (∀ j, i ≤ j → j < i + fuel → nonTerminal (poll j)) →
      fetchPollBlob poll i fuel = (Except.error "Model conversion timed out.", fuel) := by
  intro fuel
  induction fuel with
  | zero => intro i _; rfl
  | succ n ih =>
    intro i h
    obtain ⟨hok, hnf, hcn⟩ := h i (le_refl i) (by omega)
    have ihr := ih (i + 1) (fun j hj1 hj2 => h j (by omega) (by omega))
    rcases hst : (poll i).body.status with _ | _ | _
    · rcases hmi : (poll i).body.model_info with _ | info
      · simp [fetchPollBlob, hok, hst, hmi, ihr]
      · simp [fetchPollBlob, hok, hst, hmi, ihr]
    · have hmi := hcn hst
      simp [fetchPollBlob, hok, hst, hmi, ihr]
    · exact absurd hst hnf

/-- The direct-variant poll loop times out after consuming all its fuel
when every response in the window is non-terminal. -/
theorem fetchPollDirect_nonterminal (poll : Nat → PollResponse) :
    ∀ fuel i, (∀ j, i ≤ j → j < i + fuel → nonTerminal (poll j)) →
      fetchPollDirect poll i fuel = (Except.error "Model conversion timed out.", fuel) := by
  intro fuel
  induction fuel with
  | zero => intro i _; rfl
  | succ n ih =>
    intro i h
    obtain ⟨hok, hnf, hcn⟩ := h i (le_refl i) (by omega)
    have ihr := ih (i + 1) (fun j hj1 hj2 => h j (by omega) (by omega))
    rcases hst : (poll i).body.status with _ | _ | _
    · rcases hmi : (poll i).body.model_info with _ | info
      · simp [fetchPollDirect, hok, hst, hmi, ihr]
      · simp [fetchPollDirect, hok, hst, hmi, ihr]
    · have hmi := hcn hst
      simp [fetchPollDirect, hok, hst, hmi, ihr]
    · exact absurd hst hnf

/-- The blob-variant poll loop stops on the first completed response with
a present `model_info`, returning it after exactly `n + 1` queries. -/
theorem fetchPollBlob_completed (poll : Nat → PollResponse) :
    ∀ n fuel i info, n < fuel →
      (∀ j, i ≤ j → j < i + n → nonTerminal (poll j)) →
      (poll (i + n)).ok = true →
      (poll (i + n)).body.status = JobStatus.completed →
      (poll (i + n)).body.model_info = some info →
      fetchPollBlob poll i fuel = (Except.ok info, n + 1) := by
  intro n
  induction n with
  | zero =>
    intro fuel i info hlt hpre hok hst hmi
    match fuel, hlt with
    | f + 1, _ =>
      simp only [Nat.add_zero] at hok hst hmi
      simp [fetchPollBlob, hok, hst, hmi]
  | succ m ih =>
    intro fuel i info hlt hpre hok hst hmi
    match fuel, hlt with
    | f + 1, hlt =>
      obtain ⟨hok0, hnf0, hcn0⟩ := hpre i (le_refl i) (by omega)
      have hidx : i + 1 + m = i + (m + 1) := by omega
      have ihr := ih f (i + 1) info (by omega)
        (fun j h1 h2 => hpre j (by omega) (by omega))
        (by rw [hidx]; exact hok) (by rw [hidx]; exact hst) (by rw [hidx]; exact hmi)
      rcases hst0 : (poll i).body.status with _ | _ | _
      · rcases hmi0 : (poll i).body.model_info with _ | info0
        · simp [fetchPollBlob, hok0, hst0, hmi0, ihr]
        · simp [fetchPollBlob, hok0, hst0, hmi0, ihr]
      · have hmi0 := hcn0 hst0
        simp [fetchPollBlob, hok0, hst0, hmi0, ihr]
      · exact absurd hst0 hnf0

/-- The direct-variant poll loop stops on the first completed response
with a present `model_info`, returning it after exactly `n + 1` queries. -/
theorem fetchPollDirect_completed (poll : Nat → PollResponse) :
    ∀ n fuel i info, n < fuel →
      (∀ j, i ≤ j → j < i + n → nonTerminal (poll j)) →
      (poll (i + n)).ok = true →
      (poll (i + n)).body.status = JobStatus.completed →
      (poll (i + n)).body.model_info = some info →
      fetchPollDirect poll i fuel = (Except.ok info, n + 1) := by
  intro n
  induction n with
  | zero =>
    intro fuel i info hlt hpre hok hst hmi
    match fuel, hlt with
    | f + 1, _ =>
      simp only [Nat.add_zero] at hok hst hmi
      simp [fetchPollDirect, hok, hst, hmi]
  | succ m ih =>
    intro fuel i info hlt hpre hok hst hmi
    match fuel, hlt with
    | f + 1, hlt =>
      obtain ⟨hok0, hnf0, hcn0⟩ := hpre i (le_refl i) (by omega)
      have hidx : i + 1 + m = i + (m + 1) := by omega
      have ihr := ih f (i + 1) info (by omega)
        (fun j h1 h2 => hpre j (by omega) (by omega))
        (by rw [hidx]; exact hok) (by rw [hidx]; exact hst) (by rw [hidx]; exact hmi)
      rcases hst0 : (poll i).body.status with _ | _ | _
      · rcases hmi0 : (poll i).body.model_info with _ | info0
        · simp [fetchPollDirect, hok0, hst0, hmi0, ihr]
        · simp [fetchPollDirect, hok0, hst0, hmi0, ihr]
      · have hmi0 := hcn0 hst0
        simp [fetchPollDirect, hok0, hst0, hmi0, ihr]
      · exact absurd hst0 hnf0

/-- The blob-variant poll loop stops on the first `failed` response
after `n` non-terminal ones, throwing its fixed failure message after
exactly `n + 1` queries. -/
theorem fetchPollBlob_failed (poll : Nat → PollResponse) :
    ∀ n fuel i, n < fuel →
      (∀ j, i ≤ j → j < i + n → nonTerminal (poll j)) →
      (poll (i + n)).ok = true →
      (poll (i + n)).body.status = JobStatus.failed →
      fetchPollBlob poll i fuel
        = (Except.error "Model conversion failed on the server.", n + 1) := by
  intro n
  induction n with
  | zero =>
    intro fuel i hlt hpre hok hst
    match fuel, hlt with
    | f + 1, _ =>
      simp only [Nat.add_zero] at hok hst
      rcases hmi : (poll i).body.model_info with _ | info
      · simp [fetchPollBlob, hok, hst, hmi]
      · simp [fetchPollBlob, hok, hst, hmi]
  | succ m ih =>
    intro fuel i hlt hpre hok hst
    match fuel, hlt with
    | f + 1, hlt =>
      obtain ⟨hok0, hnf0, hcn0⟩ := hpre i (le_refl i) (by omega)
      have hidx : i + 1 + m = i + (m + 1) := by omega
      have ihr := ih f (i + 1) (by omega)
        (fun j h1 h2 => hpre j (by omega) (by omega))
        (by rw [hidx]; exact hok) (by rw [hidx]; exact hst)
      rcases hst0 : (poll i).body.status with _ | _ | _
      · rcases hmi0 : (poll i).body.model_info with _ | info0
        · simp [fetchPollBlob, hok0, hst0, hmi0, ihr]
        · simp [fetchPollBlob, hok0, hst0, hmi0, ihr]
      · have hmi0 := hcn0 hst0
        simp [fetchPollBlob, hok0, hst0, hmi0, ihr]
      · exact absurd hst0 hnf0

/-- The direct-variant poll loop stops on the first `failed` response
after `n` non-terminal ones, throwing the message interpolated from that
response's `error` field after exactly `n + 1` queries. -/
theorem fetchPollDirect_failed (poll : Nat → PollResponse) :
    ∀ n fuel i, n < fuel →
      (∀ j, i ≤ j → j < i + n → nonTerminal (poll j)) →
      (poll (i + n)).ok = true →
      (poll (i + n)).body.status = JobStatus.failed →
      fetchPollDirect poll i fuel
        = (Except.error (directFailedMsg (poll (i + n)).body.error), n + 1) := by
  intro n
  induction n with
  | zero =>
    intro fuel i hlt hpre hok hst
    match fuel, hlt with
    | f + 1, _ =>
      simp only [Nat.add_zero] at hok hst ⊢
      rcases hmi : (poll i).body.model_info with _ | info
      · simp [fetchPollDirect, hok, hst, hmi]
      · simp [fetchPollDirect, hok, hst, hmi]
  | succ m ih =>
    intro fuel i hlt hpre hok hst
    match fuel, hlt with
    | f + 1, hlt =>
      obtain ⟨hok0, hnf0, hcn0⟩ := hpre i (le_refl i) (by omega)
      have hidx : i + 1 + m = i + (m + 1) := by omega
      have ihr := ih f (i + 1) (by omega)
        (fun j h1 h2 => hpre j (by omega) (by omega))
        (by rw [hidx]; exact hok) (by rw [hidx]; exact hst)
      rw [hidx] at ihr
      rcases hst0 : (poll i).body.status with _ | _ | _
      · rcases hmi0 : (poll i).body.model_info with _ | info0
        · simp [fetchPollDirect, hok0, hst0, hmi0, ihr]
        · simp [fetchPollDirect, hok0, hst0, hmi0, ihr]
      · have hmi0 := hcn0 hst0
        simp [fetchPollDirect, hok0, hst0, hmi0, ihr]
      · exact absurd hst0 hnf0

/-- Claim C2: if every status query returns `processing`, both variants of
`fetchConvertedModel` issue exactly `MAX_POLLING_ATTEMPTS = 60` queries
and terminate with the timeout error instead of looping forever. -/
theorem claimC2_always_processing_times_out (poll : Nat → PollResponse)
    (h : ∀ i, (poll i).ok = true ∧ (poll i).body.status = JobStatus.processing) :
    fetchConvertedModelBlob poll = (Except.error "Model conversion timed out.", 60) ∧
    fetchConvertedModelDirect poll = (Except.error "Model conversion timed out.", 60) := by
  have hnt : ∀ j, 0 ≤ j → j < 0 + 60 → nonTerminal (poll j) := by
    intro j _ _
    obtain ⟨hok, hproc⟩ := h j
    refine ⟨hok, ?_, ?_⟩
    · rw [hproc]; intro hcon; cases hcon
    · rw [hproc]; intro hcon; cases hcon
  exact ⟨fetchPollBlob_nonterminal poll 60 0 hnt, fetchPollDirect_nonterminal poll 60 0 hnt⟩

/-- Witness for C2 at the constant `processing` oracle. -/
theorem claimC2_always_processing_times_out_witness :
    fetchConvertedModelBlob (fun _ => ⟨true, 200, ⟨JobStatus.processing, none, none⟩⟩)
      = (Except.error "Model conversion timed out.", 60) ∧
    fetchConvertedModelDirect (fun _ => ⟨true, 200, ⟨JobStatus.processing, none, none⟩⟩)
      = (Except.error "Model conversion timed out.", 60) :=
  claimC2_always_processing_times_out _ (fun _ => ⟨rfl, rfl⟩)

/-- Claim C3: if attempt `n` (1-indexed, `n ≤ 60`) answers `completed`
with a present `model_info` and all earlier attempts are non-terminal,
both variants of `fetchConvertedModel` return exactly that `model_info`
after exactly `n` queries, issuing no further queries. -/
theorem claimC3_completed_returns_model (poll : Nat → PollResponse) (n : Nat)
    (info : ConvertedModel) (h1 : 1 ≤ n) (h2 : n ≤ 60)
    (hpre : ∀ j, j < n - 1 → nonTerminal (poll j))
    (hok : (poll (n - 1)).ok = true)
    (hst : (poll (n - 1)).body.status = JobStatus.completed)
    (hmi : (poll (n - 1)).body.model_info = some info) :
    fetchConvertedModelBlob poll = (Except.ok info, n) ∧
    fetchConvertedModelDirect poll = (Except.ok info, n) := by
  have hz : 0 + (n - 1) = n - 1 := by omega
  have hb := fetchPollBlob_completed poll (n - 1) 60 0 info (by omega)
    (fun j hj1 hj2 => hpre j (by omega))
    (by rw [hz]; exact hok) (by rw [hz]; exact hst) (by rw [hz]; exact hmi)
  have hd := fetchPollDirect_completed poll (n - 1) 60 0 info (by omega)
    (fun j hj1 hj2 => hpre j (by omega))
    (by rw [hz]; exact hok) (by rw [hz]; exact hst) (by rw [hz]; exact hmi)
  have hn : n - 1 + 1 = n := by omega
  rw [hn] at hb hd
  exact ⟨hb, hd⟩

/-- Witness for C3: completed on attempt 3 after two `processing` answers. -/
theorem claimC3_completed_returns_model_witness :
    fetchConvertedModelBlob
        (fun j => if j < 2 then ⟨true, 200, ⟨JobStatus.processing, none, none⟩⟩
                  else ⟨true, 200, ⟨JobStatus.completed, some ⟨"/x.obj", "L", none⟩, none⟩⟩)
      = (Except.ok ⟨"/x.obj", "L", none⟩, 3) ∧
    fetchConvertedModelDirect
        (fun j => if j < 2 then ⟨true, 200, ⟨JobStatus.processing, none, none⟩⟩
                  else ⟨true, 200, ⟨JobStatus.completed, some ⟨"/x.obj", "L", none⟩, none⟩⟩)
      = (Except.ok ⟨"/x.obj", "L", none⟩, 3) :=
  claimC3_completed_returns_model _ 3 ⟨"/x.obj", "L", none⟩ (by decide) (by decide)
    (by decide) (by decide) (by decide) (by decide)

/-- Claim C9: a `completed` response whose `model_info` is `null` is
treated as non-terminal; if every attempt answers that way, both variants
poll all 60 attempts and end with the timeout error rather than surfacing
the completed status. -/
theorem claimC9_completed_null_keeps_polling (poll : Nat → PollResponse)
    (h : ∀ i, (poll i).ok = true ∧ (poll i).body.status = JobStatus.completed ∧
      (poll i).body.model_info = none) :
    fetchConvertedModelBlob poll = (Except.error "Model conversion timed out.", 60) ∧
    fetchConvertedModelDirect poll = (Except.error "Model conversion timed out.", 60) := by
  have hnt : ∀ j, 0 ≤ j → j < 0 + 60 → nonTerminal (poll j) := by
    intro j _ _
    obtain ⟨hok, hcomp, hnone⟩ := h j
    refine ⟨hok, ?_, fun _ => hnone⟩
    rw [hcomp]; intro hcon; cases hcon
  exact ⟨fetchPollBlob_nonterminal poll 60 0 hnt, fetchPollDirect_nonterminal poll 60 0 hnt⟩

/-- Counterexample to C4 as stated: with a first response of
`status = failed, error = "bad video"`, the blob variant stops after one
query but throws the fixed message `Model conversion failed on the
server.`, which does not carry the reason string. -/
theorem claimC4_counterexample :
    fetchConvertedModelBlob (fun _ => ⟨true, 200, ⟨JobStatus.failed, none, some "bad video"⟩⟩)
      = (Except.error "Model conversion failed on the server.", 1) ∧
    strContains "Model conversion failed on the server." "bad video" = false := by
  constructor
  · rfl
  · decide

/-- Claim C4 (amended): if attempt `n` (1-indexed, `n ≤ 60`) answers
`failed` with a non-empty reason string and all earlier attempts are
non-terminal, both variants of `fetchConvertedModel` fail immediately
after exactly `n` queries, issuing no further queries; the direct
variant's error message carries the reason, while the blob variant's is
the fixed message without it. -/
theorem claimC4_failed_stops_immediately (poll : Nat → PollResponse) (n : Nat)
    (reason : String) (h1 : 1 ≤ n) (h2 : n ≤ 60)
    (hpre : ∀ j, j < n - 1 → nonTerminal (poll j))
    (hok : (poll (n - 1)).ok = true)
    (hst : (poll (n - 1)).body.status = JobStatus.failed)
    (herr : (poll (n - 1)).body.error = some reason)
    (hne : reason ≠ "") :
    fetchConvertedModelDirect poll
      = (Except.error ("Model conversion failed on the server. Reason: " ++ reason), n) ∧
    fetchConvertedModelBlob poll
      = (Except.error "Model conversion failed on the server.", n) := by
  have hz : 0 + (n - 1) = n - 1 := by omega
  have hd := fetchPollDirect_failed poll (n - 1) 60 0 (by omega)
    (fun j hj1 hj2 => hpre j (by omega))
    (by rw [hz]; exact hok) (by rw [hz]; exact hst)
  have hb := fetchPollBlob_failed poll (n - 1) 60 0 (by omega)
    (fun j hj1 hj2 => hpre j (by omega))
    (by rw [hz]; exact hok) (by rw [hz]; exact hst)
  rw [hz, herr] at hd
  have hmsg : directFailedMsg (some reason) = "Model conversion failed on the server. Reason: " ++ reason := by
    simp [directFailedMsg, hne]
  rw [hmsg] at hd
  have hn : n - 1 + 1 = n := by omega
  rw [hn] at hb hd
  exact ⟨hd, hb⟩

/-- Witness for the amended C4: two `processing` answers, then `failed`
with the reason string `bad video` on attempt 3; both variants stop at
exactly 3 queries. -/
theorem claimC4_failed_stops_immediately_witness :
    fetchConvertedModelDirect
        (fun j => if j < 2 then ⟨true, 200, ⟨JobStatus.processing, none, none⟩⟩
                  else ⟨true, 200, ⟨JobStatus.failed, none, some "bad video"⟩⟩)
      = (Except.error "Model conversion failed on the server. Reason: bad video", 3) ∧
    fetchConvertedModelBlob
        (fun j => if j < 2 then ⟨true, 200, ⟨JobStatus.processing, none, none⟩⟩
                  else ⟨true, 200, ⟨JobStatus.failed, none, some "bad video"⟩⟩)
      = (Except.error "Model conversion failed on the server.", 3) :=
  claimC4_failed_stops_immediately _ 3 "bad video" (by decide) (by decide) (by decide)
    (by decide) (by decide) (by decide) (by decide)

/-- Witness for C9 at the constant completed-with-null oracle. -/
theorem claimC9_completed_null_keeps_polling_witness :
    fetchConvertedModelBlob (fun _ => ⟨true, 200, ⟨JobStatus.completed, none, none⟩⟩)
      = (Except.error "Model conversion timed out.", 60) ∧
    fetchConvertedModelDirect (fun _ => ⟨true, 200, ⟨JobStatus.completed, none, none⟩⟩)
      = (Except.error "Model conversion timed out.", 60) :=
  claimC9_completed_null_keeps_polling _ (fun _ => ⟨rfl, rfl, rfl⟩)

/-- Claim C5: for a missing or zero-length recording blob, both variants
of `uploadVideo` fail with the empty-artifact error and the request log
stays empty, i.e. the failure happens before any network request. -/
theorem claimC5_empty_blob_no_network (benv : BlobUploadEnv) (denv : DirectUploadEnv)
    (blob : Option Blob) (filename : String)
    (h : blob = none ∨ blob = some ⟨0⟩) :
    uploadVideoBlob benv blob filename = (Except.error "The video to convert is missing.", []) ∧
    uploadVideoDirect denv blob filename = (Except.error "The video to convert is missing.", []) := by
  rcases h with h | h <;> subst h
  · exact ⟨rfl, rfl⟩
  · exact ⟨rfl, rfl⟩

/-- Witness for C5 at a zero-length blob and an arbitrary concrete
environment. -/
theorem claimC5_empty_blob_no_network_witness :
    uploadVideoBlob ⟨"https://api", ⟨true, 200, ""⟩, "u", "d", ⟨true, 200, ""⟩, ⟨true, 200, ""⟩, "abc"⟩
        (some ⟨0⟩) "video.webm"
      = (Except.error "The video to convert is missing.", []) ∧
    uploadVideoDirect ⟨⟨true, 200, ""⟩, "abc"⟩ (some ⟨0⟩) "video.webm"
      = (Except.error "The video to convert is missing.", []) :=
  claimC5_empty_blob_no_network _ _ (some ⟨0⟩) "video.webm" (Or.inr rfl)

/-- The `stopStream` leaves no live handle, holds no stream, and does not
advance the handle counter. -/
theorem stopStream_spec (s : SessionState) (w : CaptureWorld) (hinv : handleInv s w) :
    (stopStream s w).1.mediaStream = none ∧ (stopStream s w).2.live = [] ∧
    (stopStream s w).2.nextHandle = w.nextHandle := by
  obtain ⟨hlive, _⟩ := hinv
  rcases hms : s.mediaStream with _ | h <;> rcases hrec : s.recorder <;>
    simp [stopStream, cleanupTimer, recorderStop, recorderOnStop, hms, hrec, hlive,
      hms ▸ hlive]

/-- One `openCamera` call preserves the handle invariant, and the
previously held handle is no longer live afterwards. -/
theorem openCamera_handleInv (env : CameraEnv) (a : Bool) (s : SessionState)
    (w : CaptureWorld) (hinv : handleInv s w) :
    handleInv (openCamera env a s w).1 (openCamera env a s w).2.1 ∧
    (∀ hdl, s.mediaStream = some hdl → hdl ∉ (openCamera env a s w).2.1.live) := by
  obtain ⟨hms, hlv, hnh⟩ := stopStream_spec s w hinv
  obtain ⟨_, hlt⟩ := hinv
  rcases hsec : env.isSecureContext with _ | _
  · constructor
    · exact ⟨by simp [openCamera, resetRecordingState, showToast, hsec, hms, hlv],
        by simp [openCamera, resetRecordingState, showToast, hsec, hms]⟩
    · intro hdl _
      simp [openCamera, resetRecordingState, showToast, hsec, hlv]
  · rcases hapi : env.hasMediaDevicesApi with _ | _
    · constructor
      · exact ⟨by simp [openCamera, resetRecordingState, showToast, hsec, hapi, hms, hlv],
          by simp [openCamera, resetRecordingState, showToast, hsec, hapi, hms]⟩
      · intro hdl _
        simp [openCamera, resetRecordingState, showToast, hsec, hapi, hlv]
    · rcases hout : env.outcome with _ | _ | _ | _
      · constructor
        · constructor
          · rcases a with _ | _ <;>
              simp [openCamera, resetRecordingState, showToast, hsec, hapi, hout, hms, hlv]
          · intro hdl hh
            rcases a with _ | _ <;>
              simp [openCamera, resetRecordingState, showToast, hsec, hapi, hout, hms, hlv] at hh ⊢ <;>
              omega
        · intro hdl hh
          have hbound := hlt hdl hh
          rcases a with _ | _ <;>
            simp [openCamera, resetRecordingState, showToast, hsec, hapi, hout, hms, hlv, hnh] <;>
            omega
      · constructor
        · exact ⟨by simp [openCamera, resetRecordingState, showToast, hsec, hapi, hout, hms, hlv],
            by simp [openCamera, resetRecordingState, showToast, hsec, hapi, hout, hms]⟩
        · intro hdl _
          simp [openCamera, resetRecordingState, showToast, hsec, hapi, hout, hlv]
      · constructor
        · exact ⟨by simp [openCamera, resetRecordingState, showToast, hsec, hapi, hout, hms, hlv],
            by simp [openCamera, resetRecordingState, showToast, hsec, hapi, hout, hms]⟩
        · intro hdl _
          simp [openCamera, resetRecordingState, showToast, hsec, hapi, hout, hlv]
      · constructor
        · exact ⟨by simp [openCamera, resetRecordingState, showToast, hsec, hapi, hout, hms, hlv],
            by simp [openCamera, resetRecordingState, showToast, hsec, hapi, hout, hms]⟩
        · intro hdl _
          simp [openCamera, resetRecordingState, showToast, hsec, hapi, hout, hlv]

/-- A whole sequence of `openCamera` calls preserves the handle
invariant. -/
theorem runOpens_handleInv (calls : List (CameraEnv × Bool)) :
    ∀ s w, handleInv s w →
      handleInv (runOpens calls s w).1 (runOpens calls s w).2 := by
  induction calls with
  | nil => intro s w h; exact h
  | cons c rest ih =>
    intro s w h
    have hstep := (openCamera_handleInv c.1 c.2 s w h).1
    have hrw : runOpens (c :: rest) s w
        = runOpens rest (openCamera c.1 c.2 s w).1 (openCamera c.1 c.2 s w).2.1 := rfl
    rw [hrw]
    exact ih _ _ hstep

/-- Claim C6: along every sequence of `openCamera` calls (from a state
satisfying the handle invariant), at most one media-device handle is live
after every prefix of the sequence, and a further open releases the
currently held handle: it is no longer live after that call. -/
theorem claimC6_single_live_handle (calls : List (CameraEnv × Bool)) (s : SessionState)
    (w : CaptureWorld) (hinv : handleInv s w) :
    (∀ k, (runOpens (calls.take k) s w).2.live.length ≤ 1) ∧
    (∀ k env a hdl, (runOpens (calls.take k) s w).1.mediaStream = some hdl →
      hdl ∉ (openCamera env a (runOpens (calls.take k) s w).1
        (runOpens (calls.take k) s w).2).2.1.live) := by
  constructor
  · intro k
    have h := runOpens_handleInv (calls.take k) s w hinv
    rw [h.1]
    rcases (runOpens (calls.take k) s w).1.mediaStream with _ | h0 <;> simp
  · intro k env a hdl hms
    exact (openCamera_handleInv env a _ _ (runOpens_handleInv (calls.take k) s w hinv)).2 hdl hms

/-- Witness for C6: two consecutive opens from the initial state leave at
most one live handle. -/
theorem claimC6_single_live_handle_witness :
    (runOpens ([(secureEnv, false), (secureEnv, true)].take 2) initialState initialWorld).2.live.length ≤ 1 :=
  (claimC6_single_live_handle [(secureEnv, false), (secureEnv, true)] initialState initialWorld
    ⟨rfl, fun h hcon => by simp [initialState] at hcon⟩).1 2

/-- In a secure context, `openCamera` always lands on the record stage
regardless of API availability or permission outcome. -/
theorem openCamera_secure_stage (env : CameraEnv) (a : Bool) (s : SessionState)
    (w : CaptureWorld) (hsec : env.isSecureContext = true) :
    (openCamera env a s w).1.stage = Stage.record := by
  rcases hapi : env.hasMediaDevicesApi with _ | _
  · simp [openCamera, resetRecordingState, showToast, hsec, hapi]
  · rcases hout : env.outcome with _ | _ | _ | _ <;> rcases a with _ | _ <;>
      simp [openCamera, resetRecordingState, showToast, hsec, hapi, hout]

/-- In a secure context with the capture API present, `openCamera`
reaches the record stage with model loading off, leaves
`processingResult` alone, either keeps the toast (successful stream
acquisition) or shows an error-tone toast, and on a successful outcome
holds a stream handle. -/
theorem openCamera_secure_api (env : CameraEnv) (a : Bool) (s : SessionState)
    (w : CaptureWorld) (hsec : env.isSecureContext = true)
    (hapi : env.hasMediaDevicesApi = true) :
    (openCamera env a s w).1.stage = Stage.record ∧
    (openCamera env a s w).1.modelLoading = false ∧
    (openCamera env a s w).1.processingResult = s.processingResult ∧
    ((openCamera env a s w).1.toast = s.toast ∨
      ∃ m, (openCamera env a s w).1.toast = some ⟨m, ToastTone.error⟩) ∧
    (env.outcome = CameraOutcome.success →
      ((openCamera env a s w).1.mediaStream).isSome = true) := by
  rcases hout : env.outcome with _ | _ | _ | _ <;> rcases a with _ | _ <;>
    refine ⟨?_, ?_, ?_, ?_, ?_⟩ <;>
    simp [openCamera, resetRecordingState, showToast, stopStream, cleanupTimer,
      recorderStop, recorderOnStop, hsec, hapi, hout] <;>
    rcases hrec : s.recorder with _ | _ <;>
    simp [hrec]

/-- Claim C1: when a review-stage confirm sees the upload call or the
subsequent poll call fail (in a secure context with the capture API
present), the session shows an error-tone notice, returns to the record
stage via `openCamera`, re-acquires the device when the camera grants
access, and leaves no conversion pending (`processingResult` off,
`recordingStatus` idle, model loading off). -/
theorem claimC1_confirm_failure_recovers (env : CameraEnv)
    (uploadResult : Except String UploadResponse) (pollResult : Except String ConvertedModel)
    (s : SessionState) (w : CaptureWorld) (b : Blob)
    (hstage : s.stage = Stage.review) (hblob : s.videoBlob = some b)
    (hsec : env.isSecureContext = true) (hapi : env.hasMediaDevicesApi = true)
    (hfail : (∃ msg, uploadResult = Except.error msg) ∨
      ((∃ r, uploadResult = Except.ok r) ∧ ∃ msg, pollResult = Except.error msg)) :
    (handleConfirm env uploadResult pollResult s w).1.stage = Stage.record ∧
    (∃ msg, (handleConfirm env uploadResult pollResult s w).1.toast
      = some ⟨msg, ToastTone.error⟩) ∧
    (handleConfirm env uploadResult pollResult s w).1.processingResult = false ∧
    (handleConfirm env uploadResult pollResult s w).1.recordingStatus = RecordingStatus.idle ∧
    (handleConfirm env uploadResult pollResult s w).1.modelLoading = false ∧
    (env.outcome = CameraOutcome.success →
      ((handleConfirm env uploadResult pollResult s w).1.mediaStream).isSome = true) := by
  rcases hfail with ⟨msg, hmsg⟩ | ⟨⟨r, hr⟩, ⟨msg, hmsg⟩⟩
  · subst hmsg
    have hshape : handleConfirm env (Except.error msg) pollResult s w = (let s2 := showToast { s with processingResult := true, recordingStatus := RecordingStatus.processing } msg ToastTone.error; let rr := openCamera env false s2 w; ({ rr.1 with processingResult := false, recordingStatus := RecordingStatus.idle }, rr.2.1)) := by
      simp [handleConfirm, hblob]
    rw [hshape]
    obtain ⟨h1, h2, _, h4, h5⟩ := openCamera_secure_api env false (showToast { s with processingResult := true, recordingStatus := RecordingStatus.processing } msg ToastTone.error) w hsec hapi
    refine ⟨h1, ?_, rfl, rfl, h2, fun hsucc => h5 hsucc⟩
    rcases h4 with h4 | ⟨m, h4⟩
    · exact ⟨msg, by rw [h4]; rfl⟩
    · exact ⟨m, h4⟩
  · subst hr; subst hmsg
    have hshape : handleConfirm env (Except.ok r) (Except.error msg) s w = (let s2 := showToast (showToast { s with processingResult := true, recordingStatus := RecordingStatus.processing, stage := Stage.viewer, modelLoading := true } "업로드 완료! 모델 변환을 시작합니다. 시간이 다소 걸릴 수 있습니다." ToastTone.info) msg ToastTone.error; let rr := openCamera env false s2 w; ({ rr.1 with processingResult := false, recordingStatus := RecordingStatus.idle }, rr.2.1)) := by
      simp [handleConfirm, hblob, showToast]
    rw [hshape]
    obtain ⟨h1, h2, _, h4, h5⟩ := openCamera_secure_api env false (showToast (showToast { s with processingResult := true, recordingStatus := RecordingStatus.processing, stage := Stage.viewer, modelLoading := true } "업로드 완료! 모델 변환을 시작합니다. 시간이 다소 걸릴 수 있습니다." ToastTone.info) msg ToastTone.error) w hsec hapi
    refine ⟨h1, ?_, rfl, rfl, h2, fun hsucc => h5 hsucc⟩
    rcases h4 with h4 | ⟨m, h4⟩
    · exact ⟨msg, by rw [h4]; rfl⟩
    · exact ⟨m, h4⟩

/-- Witness for C1: a failed upload from a concrete review-stage state
recovers to the record stage with the device re-acquired. -/
theorem claimC1_confirm_failure_recovers_witness :
    (handleConfirm secureEnv (Except.error "boom") (Except.ok ⟨"/m.obj", "L", none⟩) reviewState initialWorld).1.stage = Stage.record ∧
    (∃ msg, (handleConfirm secureEnv (Except.error "boom") (Except.ok ⟨"/m.obj", "L", none⟩) reviewState initialWorld).1.toast = some ⟨msg, ToastTone.error⟩) ∧
    (handleConfirm secureEnv (Except.error "boom") (Except.ok ⟨"/m.obj", "L", none⟩) reviewState initialWorld).1.processingResult = false ∧
    (handleConfirm secureEnv (Except.error "boom") (Except.ok ⟨"/m.obj", "L", none⟩) reviewState initialWorld).1.recordingStatus = RecordingStatus.idle ∧
    (handleConfirm secureEnv (Except.error "boom") (Except.ok ⟨"/m.obj", "L", none⟩) reviewState initialWorld).1.modelLoading = false ∧
    (secureEnv.outcome = CameraOutcome.success →
      ((handleConfirm secureEnv (Except.error "boom") (Except.ok ⟨"/m.obj", "L", none⟩) reviewState initialWorld).1.mediaStream).isSome = true) :=
  claimC1_confirm_failure_recovers secureEnv (Except.error "boom")
    (Except.ok ⟨"/m.obj", "L", none⟩) reviewState initialWorld ⟨5⟩
    rfl rfl rfl rfl (Or.inl ⟨"boom", rfl⟩)

/-- In an insecure context, `openCamera` refuses to open the camera and
returns the session to the locked stage. -/
theorem openCamera_insecure_stage (env : CameraEnv) (a : Bool) (s : SessionState)
    (w : CaptureWorld) (hsec : env.isSecureContext = false) :
    (openCamera env a s w).1.stage = Stage.locked := by
  simp [openCamera, resetRecordingState, showToast, hsec]

/-- Counterexample to C8 as stated, in both directions: the credential
with a leading space is not an exact match of the secret, yet submitting
it in a secure context moves the session from the locked stage to the
record stage (the input is trimmed before comparison); and in an
insecure context submitting the exact secret fails to unlock, the stage
returning to locked. -/
theorem claimC8_counterexample :
    ((" 2025jhyw" == ACCESS_PASSWORD) = false ∧
      (handlePasswordSubmit secureEnv " 2025jhyw" initialState initialWorld).1.stage
        = Stage.record) ∧
    (("2025jhyw" == ACCESS_PASSWORD) = true ∧
      (handlePasswordSubmit insecureEnv "2025jhyw" initialState initialWorld).1.stage
        = Stage.locked) := by
  exact ⟨⟨by decide, rfl⟩, ⟨by decide, rfl⟩⟩

/-- Claim C8 (amended): from the locked stage, the session transitions
to the record stage if and only if the whitespace-trimmed credential
equals `ACCESS_PASSWORD` and the execution context is secure; on any
input whose trimmed form does not match, the stage stays locked and the
error message is set. -/
theorem claimC8_trimmed_password_gate (env : CameraEnv) (input : String)
    (s : SessionState) (w : CaptureWorld)
    (hlocked : s.stage = Stage.locked) :
    ((handlePasswordSubmit env input s w).1.stage = Stage.record
      ↔ (jsTrim input = ACCESS_PASSWORD ∧ env.isSecureContext = true)) ∧
    (jsTrim input ≠ ACCESS_PASSWORD →
      (handlePasswordSubmit env input s w).1.stage = Stage.locked ∧
      (handlePasswordSubmit env input s w).1.passwordError = "비밀번호가 올바르지 않습니다.") := by
  by_cases hm : jsTrim input = ACCESS_PASSWORD
  · have hshape : handlePasswordSubmit env input s w
        = ((openCamera env false { s with passwordError := "" } w).1,
           (openCamera env false { s with passwordError := "" } w).2.1) := by
      simp [handlePasswordSubmit, hm]
    refine ⟨?_, fun hcon => absurd hm hcon⟩
    by_cases hsec : env.isSecureContext = true
    · rw [hshape]
      have hst := openCamera_secure_stage env false { s with passwordError := "" } w hsec
      simp [hst, hm, hsec]
    · have hsec' : env.isSecureContext = false := by simpa using hsec
      have hst := openCamera_insecure_stage env false { s with passwordError := "" } w hsec'
      rw [hshape]
      constructor
      · intro hcon
        simp [hst] at hcon
      · intro hcon
        exact absurd hcon.2 hsec
  · have hshape : handlePasswordSubmit env input s w
        = ({ s with passwordError := "비밀번호가 올바르지 않습니다." }, w) := by
      simp [handlePasswordSubmit, hm]
    have hstage2 : (handlePasswordSubmit env input s w).1.stage = Stage.locked := by
      rw [hshape]; exact hlocked
    refine ⟨⟨fun hcon => ?_, fun hcon => absurd hcon.1 hm⟩, fun _ => ⟨hstage2, by rw [hshape]⟩⟩
    rw [hstage2] at hcon
    cases hcon

/-- Witness for the amended C8: a non-matching credential keeps the
session locked with the error message set. -/
theorem claimC8_trimmed_password_gate_witness :
    (handlePasswordSubmit secureEnv "wrong" initialState initialWorld).1.stage = Stage.locked ∧
    (handlePasswordSubmit secureEnv "wrong" initialState initialWorld).1.passwordError
      = "비밀번호가 올바르지 않습니다." :=
  (claimC8_trimmed_password_gate secureEnv "wrong" initialState initialWorld rfl).2
    (by decide)

/-- A timer firing preserves the recording invariant, advancing the tick
count. -/
theorem timerTick_recInv (s0 s : SessionState) (t : Nat) (h : recInv s0 s t) :
    recInv s0 (timerTick s) (t + 1) := by
  obtain ⟨htoast, hrest⟩ := h
  by_cases ht : t < 60
  · rw [if_pos ht] at hrest
    obtain ⟨harm, hrec, hstat, hel, hstg, hvb⟩ := hrest
    by_cases ht59 : t < 59
    · have hlt : ¬ MAX_DURATION_MS ≤ s.elapsedMs + 1000 := by
        simp only [MAX_DURATION_MS]; omega
      refine ⟨?_, ?_⟩
      · simp [timerTick, harm, hlt, htoast]
      · rw [if_pos (by omega : t + 1 < 60)]
        refine ⟨?_, ?_, ?_, ?_, ?_, ?_⟩ <;>
          simp [timerTick, harm, hlt, hrec, hstat, hstg, hvb] <;> omega
    · have ht' : t = 59 := by omega
      subst ht'
      have hge : MAX_DURATION_MS ≤ s.elapsedMs + 1000 := by
        simp only [MAX_DURATION_MS]; omega
      refine ⟨?_, ?_⟩
      · simp [timerTick, harm, hge, recorderStop, hrec, recorderOnStop,
          cleanupTimer, htoast]
      · rw [if_neg (by omega : ¬ 59 + 1 < 60)]
        refine ⟨?_, ?_, ?_, ?_, ?_, ?_⟩ <;>
          simp [timerTick, harm, hge, recorderStop, hrec, recorderOnStop,
            cleanupTimer] <;>
          simp [MAX_DURATION_MS]
  · rw [if_neg ht] at hrest
    obtain ⟨harm, hrec, hstat, hel, hstg, hvb⟩ := hrest
    have hid : timerTick s = s := by simp [timerTick, harm]
    rw [hid]
    exact ⟨htoast, by rw [if_neg (by omega : ¬ t + 1 < 60)]; exact ⟨harm, hrec, hstat, hel, hstg, hvb⟩⟩

/-- A data chunk preserves the recording invariant. -/
theorem dataAvailable_recInv (s0 s : SessionState) (t n : Nat) (h : recInv s0 s t) :
    recInv s0 (dataAvailable n s) t := by
  obtain ⟨htoast, hrest⟩ := h
  by_cases ht : t < 60
  · rw [if_pos ht] at hrest
    obtain ⟨harm, hrec, hstat, hel, hstg, hvb⟩ := hrest
    by_cases hn : n = 0
    · refine ⟨?_, ?_⟩
      · simp [dataAvailable, hrec, hn, htoast]
      · rw [if_pos ht]
        refine ⟨?_, ?_, ?_, ?_, ?_, ?_⟩ <;> simp [dataAvailable, hrec, hn] <;>
          simp [harm, hstat, hel, hstg, hvb]
    · refine ⟨?_, ?_⟩
      · simp [dataAvailable, hrec, hn, htoast]
      · rw [if_pos ht]
        refine ⟨?_, ?_, ?_, ?_, ?_, ?_⟩ <;> simp [dataAvailable, hrec, hn] <;>
          simp [harm, hstat, hel, hstg, hvb]
  · rw [if_neg ht] at hrest
    obtain ⟨harm, hrec, hstat, hel, hstg, hvb⟩ := hrest
    have hid : dataAvailable n s = s := by simp [dataAvailable, hrec]
    rw [hid]
    exact ⟨htoast, by rw [if_neg ht]; exact ⟨harm, hrec, hstat, hel, hstg, hvb⟩⟩

/-- Folding any event list preserves the recording invariant, advancing
the tick count by the number of timer firings in the list. -/
theorem recRun_recInv (s0 : SessionState) (evs : List RecEvent) :
    ∀ s t, recInv s0 s t →
      recInv s0 (evs.foldl recStep s) (t + evs.count RecEvent.tick) := by
  induction evs with
  | nil => intro s t h; simpa using h
  | cons e rest ih =>
    intro s t h
    rcases e with _ | n
    · have hstep := timerTick_recInv s0 s t h
      have hrec := ih (timerTick s) (t + 1) hstep
      have hcount : (RecEvent.tick :: rest).count RecEvent.tick
          = rest.count RecEvent.tick + 1 := by
        simp [List.count_cons]
      have hfold : (RecEvent.tick :: rest).foldl recStep s = rest.foldl recStep (timerTick s) := rfl
      rw [hfold, hcount]
      have harith : t + (rest.count RecEvent.tick + 1) = t + 1 + rest.count RecEvent.tick := by
        omega
      rw [harith]
      exact hrec
    · have hstep := dataAvailable_recInv s0 s t n h
      have hrec := ih (dataAvailable n s) t hstep
      have hcount : (RecEvent.data n :: rest).count RecEvent.tick
          = rest.count RecEvent.tick := by
        simp [List.count_cons]
      have hfold : (RecEvent.data n :: rest).foldl recStep s
          = rest.foldl recStep (dataAvailable n s) := rfl
      rw [hfold, hcount]
      exact hrec

/-- Claim C7: once a recording is started on a held stream, the elapsed
time never exceeds the 60-second ceiling under any sequence of timer
firings and data chunks; as soon as 60 timer firings have occurred the
recorder is force-stopped, `elapsedMs` is clamped at 60000, a finalized
recording blob is on the review stage with the status idle, and no new
notice was emitted (the forced stop is not an error). -/
theorem claimC7_duration_clamped (s : SessionState) (hd : Nat) (evs : List RecEvent)
    (hstream : s.mediaStream = some hd) :
    ((evs.foldl recStep (handleStartRecording true s)).elapsedMs ≤ 60000) ∧
    (60 ≤ evs.count RecEvent.tick →
      (evs.foldl recStep (handleStartRecording true s)).recorder = false ∧
      (evs.foldl recStep (handleStartRecording true s)).timerArmed = false ∧
      (evs.foldl recStep (handleStartRecording true s)).recordingStatus = RecordingStatus.idle ∧
      (evs.foldl recStep (handleStartRecording true s)).elapsedMs = 60000 ∧
      (evs.foldl recStep (handleStartRecording true s)).stage = Stage.review ∧
      ((evs.foldl recStep (handleStartRecording true s)).videoBlob).isSome = true ∧
      (evs.foldl recStep (handleStartRecording true s)).toast = s.toast) := by
  have hbase : recInv s (handleStartRecording true s) 0 := by
    refine ⟨?_, ?_⟩
    · simp [handleStartRecording, hstream]
    · rw [if_pos (by omega : (0:Nat) < 60)]
      refine ⟨?_, ?_, ?_, ?_, ?_, ?_⟩ <;> simp [handleStartRecording, hstream]
  have hrun := recRun_recInv s evs (handleStartRecording true s) 0 hbase
  obtain ⟨htoast, hrest⟩ := hrun
  constructor
  · by_cases ht : 0 + evs.count RecEvent.tick < 60
    · rw [if_pos ht] at hrest
      obtain ⟨_, _, _, hel, _, _⟩ := hrest
      rw [hel]; omega
    · rw [if_neg ht] at hrest
      obtain ⟨_, _, _, hel, _, _⟩ := hrest
      rw [hel]
  · intro hge
    rw [if_neg (by omega : ¬ 0 + evs.count RecEvent.tick < 60)] at hrest
    obtain ⟨h1, h2, h3, h4, h5, h6⟩ := hrest
    exact ⟨h2, h1, h3, h4, h5, h6, htoast⟩

/-- Witness for C7: sixty timer firings from a concrete armed state stop
the recorder at exactly 60000 ms with a finalized recording on review. -/
theorem claimC7_duration_clamped_witness :
    (((List.replicate 60 RecEvent.tick).foldl recStep
      (handleStartRecording true { initialState with stage := Stage.record, mediaStream := some 0 })).elapsedMs ≤ 60000) ∧
    (((List.replicate 60 RecEvent.tick).foldl recStep
      (handleStartRecording true { initialState with stage := Stage.record, mediaStream := some 0 })).recorder = false ∧
      ((List.replicate 60 RecEvent.tick).foldl recStep
        (handleStartRecording true { initialState with stage := Stage.record, mediaStream := some 0 })).timerArmed = false ∧
      ((List.replicate 60 RecEvent.tick).foldl recStep
        (handleStartRecording true { initialState with stage := Stage.record, mediaStream := some 0 })).recordingStatus = RecordingStatus.idle ∧
      ((List.replicate 60 RecEvent.tick).foldl recStep
        (handleStartRecording true { initialState with stage := Stage.record, mediaStream := some 0 })).elapsedMs = 60000 ∧
      ((List.replicate 60 RecEvent.tick).foldl recStep
        (handleStartRecording true { initialState with stage := Stage.record, mediaStream := some 0 })).stage = Stage.review ∧
      (((List.replicate 60 RecEvent.tick).foldl recStep
        (handleStartRecording true { initialState with stage := Stage.record, mediaStream := some 0 })).videoBlob).isSome = true ∧
      ((List.replicate 60 RecEvent.tick).foldl recStep
        (handleStartRecording true { initialState with stage := Stage.record, mediaStream := some 0 })).toast
        = { initialState with stage := Stage.record, mediaStream := some 0 }.toast) :=
  ⟨(claimC7_duration_clamped { initialState with stage := Stage.record, mediaStream := some 0 } 0
      (List.replicate 60 RecEvent.tick) rfl).1,
   (claimC7_duration_clamped { initialState with stage := Stage.record, mediaStream := some 0 } 0
      (List.replicate 60 RecEvent.tick) rfl).2 (by decide)⟩

/-- Claim C10: the static route serves file content only when
`path.join(projectRoot, filename)` starts with the project root; a
specified path failing the prefix check gets 403 with no `readFile`
call, and a failing read yields 404. -/
theorem claimC10_static_route_prefix_guard (cwd : String) (fsRead : String → Option String)
    (slug : List String) :
    ((staticGET cwd fsRead slug).1.status = 200 →
      strStartsWith (pathJoin cwd (joinSlash slug)) cwd = true ∧
      fsRead (pathJoin cwd (joinSlash slug)) = some (staticGET cwd fsRead slug).1.body) ∧
    (joinSlash slug ≠ "" →
      strStartsWith (pathJoin cwd (joinSlash slug)) cwd = false →
      (staticGET cwd fsRead slug).1.status = 403 ∧ (staticGET cwd fsRead slug).2 = []) ∧
    (joinSlash slug ≠ "" →
      strStartsWith (pathJoin cwd (joinSlash slug)) cwd = true →
      fsRead (pathJoin cwd (joinSlash slug)) = none →
      (staticGET cwd fsRead slug).1.status = 404) := by
  by_cases hf : joinSlash slug = ""
  · refine ⟨?_, fun hcon => absurd hf hcon, fun hcon => absurd hf hcon⟩
    intro h200
    exfalso
    simp [staticGET, hf] at h200
  · by_cases hpre : strStartsWith (pathJoin cwd (joinSlash slug)) cwd = true
    · rcases hread : fsRead (pathJoin cwd (joinSlash slug)) with _ | content
      · refine ⟨?_, ?_, ?_⟩
        · intro h200
          exfalso
          simp [staticGET, hf, hpre, hread] at h200
        · intro _ hcon
          rw [hpre] at hcon
          cases hcon
        · intro _ _ _
          simp [staticGET, hf, hpre, hread]
      · refine ⟨?_, ?_, ?_⟩
        · intro _
          exact ⟨hpre, by simp [staticGET, hf, hpre, hread]⟩
        · intro _ hcon
          rw [hpre] at hcon
          cases hcon
        · intro _ _ hcon
          simp at hcon
    · have hpre' : strStartsWith (pathJoin cwd (joinSlash slug)) cwd = false := by
        simpa using hpre
      refine ⟨?_, ?_, ?_⟩
      · intro h200
        exfalso
        simp [staticGET, hf, hpre'] at h200
      · intro _ _
        constructor <;> simp [staticGET, hf, hpre']
      · intro _ hcon _
        exact absurd hcon hpre

/-- Witness for C10: a traversal request outside the project root is
rejected with 403 and no read; the joined path indeed escapes the root. -/
theorem claimC10_static_route_prefix_guard_witness :
    (staticGET "/app" (fun _ => none) ["..", "etc", "passwd"]).1.status = 403 ∧
    (staticGET "/app" (fun _ => none) ["..", "etc", "passwd"]).2 = [] :=
  (claimC10_static_route_prefix_guard "/app" (fun _ => none) ["..", "etc", "passwd"]).2.1
    (by decide) (by decide)

end ThreeDInter
